import Mathlib

/-!
Shallow embedding of the face-liveness-detector core (pose extractor,
face selector, blink detector, motion validator, challenge orchestrator)
over exact rationals, with theorems checking the specification's claims.
Sources: src/lib/poseAnalyzer.ts, src/lib/faceSelector.ts,
src/lib/blinkDetector.ts, src/lib/motionValidator.ts,
src/hooks/useFaceLiveness.ts.
-/

attribute [local semireducible] Rat.add Rat.sub Rat.mul Rat.inv Nat.gcd Rat.ofScientific

namespace FaceLiveness

/-- A 2D landmark point (the z coordinate of the 478-point mesh is unused
by the core). Coordinates are normalized; we embed numbers as `ℚ`. -/
structure Landmark where
  x : ℚ
  y : ℚ
deriving DecidableEq, Inhabited

/-- Head pose estimate, from poseAnalyzer.ts `HeadPose`. -/
structure HeadPose where
  yaw : ℚ
  pitch : ℚ
  noseTipX : ℚ
  noseTipY : ℚ
deriving DecidableEq, Inhabited

/-! ### Pose extractor (src/lib/poseAnalyzer.ts) -/

/-- Landmark index 1 = nose tip. -/
def IDX_NOSE_TIP : Nat := 1
/-- Landmark index 33 = left eye outer corner. -/
def IDX_LEFT_EYE_OUTER : Nat := 33
/-- Landmark index 263 = right eye outer corner. -/
def IDX_RIGHT_EYE_OUTER : Nat := 263
/-- Landmark index 152 = chin bottom. -/
def IDX_CHIN : Nat := 152
/-- Landmark index 10 = forehead top. -/
def IDX_FOREHEAD : Nat := 10

/-- `extractHeadPose` from poseAnalyzer.ts: yaw is nose X relative to the
eye midpoint, normalized by inter-eye distance; pitch is nose Y relative
to the eye line, normalized by face height; each guarded so the formula
applies only when the normalizer exceeds 0.001. -/
def extractHeadPose (landmarks : List Landmark) : HeadPose :=
  let nose := landmarks.getD IDX_NOSE_TIP default
  let leftEye := landmarks.getD IDX_LEFT_EYE_OUTER default
  let rightEye := landmarks.getD IDX_RIGHT_EYE_OUTER default
  let chin := landmarks.getD IDX_CHIN default
  let forehead := landmarks.getD IDX_FOREHEAD default
  let eyeMidX := (leftEye.x + rightEye.x) / 2
  let interEyeDistance := |rightEye.x - leftEye.x|
  let yaw := if interEyeDistance > 0.001 then (nose.x - eyeMidX) / interEyeDistance else 0
  let eyeMidY := (leftEye.y + rightEye.y) / 2
  let faceHeight := |chin.y - forehead.y|
  let pitch := if faceHeight > 0.001 then (nose.y - eyeMidY) / faceHeight else 0
  { yaw := yaw, pitch := pitch, noseTipX := nose.x, noseTipY := nose.y }

/-! ### Face selector (src/lib/faceSelector.ts) -/

/-- Landmark index 234 = left cheek. -/
def IDX_LEFT_CHEEK : Nat := 234
/-- Landmark index 454 = right cheek. -/
def IDX_RIGHT_CHEEK : Nat := 454

/-- One named expression score (a MediaPipe blendshape category). -/
structure Category where
  categoryName : String
  score : ℚ
deriving DecidableEq, Inhabited

/-- A classification result: the list of blendshape categories for a face. -/
structure Classifications where
  categories : List Category
deriving DecidableEq, Inhabited

/-- `faceArea` from faceSelector.ts: bounding-box area from the four
silhouette landmarks |rightCheekX − leftCheekX| × |chinY − foreheadY|. -/
def faceArea (landmarks : List Landmark) : ℚ :=
  let top := landmarks.getD IDX_FOREHEAD default
  let bottom := landmarks.getD IDX_CHIN default
  let left := landmarks.getD IDX_LEFT_CHEEK default
  let right := landmarks.getD IDX_RIGHT_CHEEK default
  |right.x - left.x| * |bottom.y - top.y|

/-- The selected subject for the current frame, from faceSelector.ts. -/
structure SelectedFace where
  landmarks : List Landmark
  blendshapes : Option (List Classifications)
  faceIndex : Nat
deriving DecidableEq, Inhabited

/-- The in-order scan of `selectLargestFace`: carries the running best
index and best area, keeps the earlier face unless a strictly larger area
appears (`area > bestArea`). Returns the final best index. -/
def selectLoop : List (List Landmark) → Nat → Nat → ℚ → Nat
  | [], _, bestIndex, _ => bestIndex
  | lm :: rest, i, bestIndex, bestArea =>
    if bestArea < faceArea lm then
      selectLoop rest (i + 1) i (faceArea lm)
    else
      selectLoop rest (i + 1) bestIndex bestArea

/-- `selectLargestFace` from faceSelector.ts: `null` on an empty list,
otherwise the face of maximal `faceArea` (ties keep the earliest), with
its blendshapes wrapped in a singleton list. The scan starts from
`bestIndex = 0`, `bestArea = −1`. -/
def selectLargestFace (faceLandmarks : List (List Landmark))
    (faceBlendshapes : Option (List Classifications)) : Option SelectedFace :=
  if faceLandmarks.isEmpty then none
  else
    let bestIndex := selectLoop faceLandmarks 0 0 (-1)
    some { landmarks := faceLandmarks.getD bestIndex []
           blendshapes :=
             match faceBlendshapes with
             | some bs => some [bs.getD bestIndex default]
             | none => none
           faceIndex := bestIndex }

/-! ### Blink detector (src/lib/blinkDetector.ts) -/

/-- Score above which an eye is considered closed. -/
def BLINK_THRESHOLD : ℚ := 0.4
/-- Score below which an eye is considered open again. -/
def OPEN_THRESHOLD : ℚ := 0.2

/-- The blink detector's three phases. -/
inductive BlinkPhase
  | waiting
  | eyes_closed
  | detected
deriving DecidableEq, Inhabited

/-- Blink detector state: just the current phase. -/
structure BlinkDetector where
  phase : BlinkPhase
deriving DecidableEq, Inhabited

/-- `reset` from blinkDetector.ts. -/
def BlinkDetector.reset (_d : BlinkDetector) : BlinkDetector :=
  { phase := BlinkPhase.waiting }

/-- The score lookup of `BlinkDetector.addFrame`: `none` when the
blendshapes argument is null (`none`), the list is empty, or either the
`eyeBlinkLeft` or `eyeBlinkRight` category is absent from the first
classification's categories; otherwise the pair of the two scores. -/
def extractScores (blendshapes : Option (List Classifications)) : Option (ℚ × ℚ) :=
  match blendshapes with
  | none => none
  | some [] => none
  | some (first :: _) =>
    let l := first.categories.find? (fun c => c.categoryName == "eyeBlinkLeft")
    let r := first.categories.find? (fun c => c.categoryName == "eyeBlinkRight")
    match l, r with
    | some lb, some rb => some (lb.score, rb.score)
    | _, _ => none

/-- `BlinkDetector.addFrame`: immediately true when already `detected`;
false on missing/empty scores; otherwise the waiting → eyes_closed →
detected transitions with the close (0.4) and reopen (0.2) thresholds.
Returns the updated detector and the boolean result. -/
def BlinkDetector.addFrame (d : BlinkDetector)
    (blendshapes : Option (List Classifications)) : BlinkDetector × Bool :=
  if d.phase = BlinkPhase.detected then (d, true)
  else
    match extractScores blendshapes with
    | none => (d, false)
    | some (leftScore, rightScore) =>
      match d.phase with
      | BlinkPhase.waiting =>
        if BLINK_THRESHOLD < leftScore ∧ BLINK_THRESHOLD < rightScore then
          ({ phase := BlinkPhase.eyes_closed }, false)
        else (d, false)
      | BlinkPhase.eyes_closed =>
        if leftScore < OPEN_THRESHOLD ∧ rightScore < OPEN_THRESHOLD then
          ({ phase := BlinkPhase.detected }, true)
        else (d, false)
      | BlinkPhase.detected => (d, false)

/-! ### Motion validator (src/lib/motionValidator.ts) -/

/-- The four challenge directions. -/
inductive ChallengeDirection
  | turnLeft
  | turnRight
  | lookUp
  | lookDown
deriving DecidableEq, Inhabited

/-- Per-frame motion validation result. -/
structure MotionResult where
  isValid : Bool
  progress : ℚ
  rejectionReason : Option String
deriving DecidableEq, Inhabited

/-- Minimum total displacement for a horizontal turn. -/
def MIN_DISPLACEMENT_HORIZONTAL : ℚ := 0.30
/-- Minimum total displacement for a vertical look. -/
def MIN_DISPLACEMENT_VERTICAL : ℚ := 0.18

/-- `getMinDisplacement` from motionValidator.ts. -/
def getMinDisplacement (direction : ChallengeDirection) : ℚ :=
  if direction = ChallengeDirection.lookUp ∨ direction = ChallengeDirection.lookDown then
    MIN_DISPLACEMENT_VERTICAL
  else MIN_DISPLACEMENT_HORIZONTAL

/-- Maximum allowed frame-to-frame jump in the target axis. -/
def MAX_FRAME_DELTA : ℚ := 0.12
/-- Sliding window size (frames). -/
def WINDOW_SIZE : Nat := 18
/-- Minimum fraction of consecutive deltas that must move in the
expected direction. -/
def minDirectionalRatio : ℚ := 0.55

/-- The axis a direction is judged on. -/
inductive Axis
  | yaw
  | pitch
deriving DecidableEq, Inhabited

/-- `getAxis` from motionValidator.ts: yaw for turnLeft/turnRight, pitch
for lookUp/lookDown. -/
def getAxis (direction : ChallengeDirection) : Axis :=
  if direction = ChallengeDirection.turnLeft ∨ direction = ChallengeDirection.turnRight then
    Axis.yaw
  else Axis.pitch

/-- `getExpectedSign` from motionValidator.ts. -/
def getExpectedSign (direction : ChallengeDirection) : ℚ :=
  match direction with
  | ChallengeDirection.turnLeft => 1
  | ChallengeDirection.turnRight => -1
  | ChallengeDirection.lookUp => -1
  | ChallengeDirection.lookDown => 1

/-- `getAxisValue` from motionValidator.ts. -/
def getAxisValue (pose : HeadPose) (axis : Axis) : ℚ :=
  match axis with
  | Axis.yaw => pose.yaw
  | Axis.pitch => pose.pitch

/-- The list of consecutive-pair deltas `axisValue[i] − axisValue[i−1]`
over a pose window, on the given axis. -/
def axisDeltas (history : List HeadPose) (axis : Axis) : List ℚ :=
  (history.zip history.tail).map (fun p => getAxisValue p.2 axis - getAxisValue p.1 axis)

/-- Signed total displacement of a window: `(last − first) × expectedSign`. -/
def totalDisplacement (history : List HeadPose) (direction : ChallengeDirection) : ℚ :=
  let axis := getAxis direction
  (getAxisValue (history.getLastD default) axis - getAxisValue (history.headD default) axis)
    * getExpectedSign direction

/-- Fraction of consecutive deltas whose sign matches the expected sign:
`correctDirectionCount / (history.length − 1)`. -/
def directionalRatio (history : List HeadPose) (direction : ChallengeDirection) : ℚ :=
  let correct :=
    ((axisDeltas history (getAxis direction)).filter
      (fun d => decide (0 < d * getExpectedSign direction))).length
  (correct : ℚ) / ((history.length : ℚ) - 1)

/-- `MotionValidator.validate` from motionValidator.ts: jump rejection
first (any consecutive delta above `MAX_FRAME_DELTA` on the selected
axis), then displacement, directional ratio, clamped progress, and the
conjunction for validity. -/
def MotionValidator.validate (history : List HeadPose)
    (direction : ChallengeDirection) : MotionResult :=
  let axis := getAxis direction
  if (axisDeltas history axis).any (fun d => decide (MAX_FRAME_DELTA < |d|)) then
    { isValid := false
      progress := 0
      rejectionReason := some "Sudden movement detected — please move slowly" }
  else
    let disp := totalDisplacement history direction
    let ratio := directionalRatio history direction
    let minDisp := getMinDisplacement direction
    let progress := min 1 (max 0 (disp / minDisp))
    { isValid := decide (minDisp ≤ disp) && decide (minDirectionalRatio ≤ ratio)
      progress := progress
      rejectionReason := none }

/-- Motion validator state: pose window and started flag. -/
structure MotionValidator where
  poseHistory : List HeadPose
  isStarted : Bool
deriving DecidableEq, Inhabited

/-- `MotionValidator.reset`. -/
def MotionValidator.reset (_v : MotionValidator) : MotionValidator :=
  { poseHistory := [], isStarted := false }

/-- The window update of `addFrame`: append the pose, then keep only the
last `WINDOW_SIZE` entries. -/
def pushWindow (history : List HeadPose) (pose : HeadPose) : List HeadPose :=
  let h := history ++ [pose]
  if WINDOW_SIZE < h.length then h.drop (h.length - WINDOW_SIZE) else h

/-- `MotionValidator.addFrame`: update the window; with fewer than 6
samples return `{isValid:false, progress:0}`; otherwise validate.
Returns the updated validator and the result. -/
def MotionValidator.addFrame (v : MotionValidator) (pose : HeadPose)
    (direction : ChallengeDirection) : MotionValidator × MotionResult :=
  let hist := pushWindow v.poseHistory pose
  let v' : MotionValidator := { poseHistory := hist, isStarted := true }
  if hist.length < 6 then
    (v', { isValid := false, progress := 0, rejectionReason := none })
  else
    (v', MotionValidator.validate hist direction)

/-! ### Challenge orchestrator (src/hooks/useFaceLiveness.ts) -/

/-- A challenge step. -/
inductive ChallengeStep
  | center
  | head (direction : ChallengeDirection)
  | blink
deriving DecidableEq, Inhabited

/-- Session-level status. -/
inductive OverallStatus
  | loading
  | ready
  | running
  | success
  | failed
deriving DecidableEq, Inhabited

/-- Per-step status. -/
inductive StepStatus
  | pending
  | active
  | success
  | failed
deriving DecidableEq, Inhabited

/-- Time allowed per challenge step, in milliseconds. -/
def STEP_TIMEOUT_MS : ℚ := 5000
/-- Center-hold yaw bound. -/
def CENTER_YAW_THRESHOLD : ℚ := 0.25
/-- Center-hold pitch bound. -/
def CENTER_PITCH_THRESHOLD : ℚ := 0.20
/-- Frames the face must stay centered before the step advances. -/
def CENTER_HOLD_FRAMES : Nat := 15

/-- `getInstructionMessage` from useFaceLiveness.ts. -/
def getInstructionMessage (step : ChallengeStep) : String :=
  match step with
  | ChallengeStep.center => "Look straight at the camera"
  | ChallengeStep.blink => "Please blink naturally 👁️"
  | ChallengeStep.head ChallengeDirection.turnLeft => "← Turn your head LEFT slowly"
  | ChallengeStep.head ChallengeDirection.turnRight => "→ Turn your head RIGHT slowly"
  | ChallengeStep.head ChallengeDirection.lookUp => "↑ Look UP slowly"
  | ChallengeStep.head ChallengeDirection.lookDown => "↓ Look DOWN slowly"

/-- Session state: the observable `LivenessState` fields together with
the hook's mutable refs. -/
structure SessionState where
  overallStatus : OverallStatus
  currentStepIndex : Nat
  stepStatus : StepStatus
  feedbackMessage : String
  motionProgress : ℚ
  isFaceDetected : Bool
  timeRemaining : ℚ
  motionValidator : MotionValidator
  blinkDetector : BlinkDetector
  centerFrames : Nat
  stepStartTime : ℚ
  currentStepRef : Nat
  isRunning : Bool
  hasAdvanced : Bool
deriving DecidableEq, Inhabited

/-- The synchronous part of `advanceStep`: guard on `hasAdvanced`; when
the next index runs off the sequence, finish with overall success;
otherwise mark the current step successful (the deferred 800 ms
continuation that moves to the next step is modelled separately). -/
def advanceStepSync (cfg : List ChallengeStep) (s : SessionState) : SessionState :=
  if s.hasAdvanced then s
  else
    let s := { s with hasAdvanced := true }
    let nextIndex := s.currentStepRef + 1
    if cfg.length ≤ nextIndex then
      { s with stepStatus := StepStatus.success
               overallStatus := OverallStatus.success
               feedbackMessage := "Liveness Confirmed ✅"
               motionProgress := 1
               isRunning := false }
    else
      { s with stepStatus := StepStatus.success
               feedbackMessage := "✓ Step complete!"
               motionProgress := 1 }

/-- The deferred (800 ms later) continuation of `advanceStep`: move to the
next step, reset both validators and the hold counter, restart the step
timer. -/
def advanceStepDeferred (cfg : List ChallengeStep) (s : SessionState)
    (nowMs : ℚ) : SessionState :=
  let nextIndex := s.currentStepRef + 1
  { s with currentStepRef := nextIndex
           hasAdvanced := false
           motionValidator := s.motionValidator.reset
           blinkDetector := s.blinkDetector.reset
           centerFrames := 0
           stepStartTime := nowMs
           currentStepIndex := nextIndex
           stepStatus := StepStatus.active
           feedbackMessage := getInstructionMessage (cfg.getD nextIndex default)
           motionProgress := 0
           timeRemaining := STEP_TIMEOUT_MS / 1000 }

/-- `failStep` from useFaceLiveness.ts. -/
def failStep (reason : String) (s : SessionState) : SessionState :=
  { s with stepStatus := StepStatus.failed
           overallStatus := OverallStatus.failed
           feedbackMessage := reason
           motionProgress := 0
           isRunning := false }

/-- `startChallenge` from useFaceLiveness.ts, with the wall clock passed
explicitly. -/
def startChallenge (cfg : List ChallengeStep) (nowMs : ℚ) : SessionState :=
  { overallStatus := OverallStatus.running
    currentStepIndex := 0
    stepStatus := StepStatus.active
    feedbackMessage := getInstructionMessage (cfg.getD 0 default)
    motionProgress := 0
    isFaceDetected := false
    timeRemaining := STEP_TIMEOUT_MS / 1000
    motionValidator := MotionValidator.reset default
    blinkDetector := BlinkDetector.reset default
    centerFrames := 0
    stepStartTime := nowMs
    currentStepRef := 0
    isRunning := true
    hasAdvanced := false }

/-- One iteration of `detectLoop` after face detection, from
useFaceLiveness.ts lines 220–318: face-presence bookkeeping, the timeout
check, then dispatch on the current step type (center hold, motion
validation, blink detection). `selected` is the result of
`selectLargestFace` for this frame; `nowMs` is `Date.now()`. -/
def processTick (cfg : List ChallengeStep) (s : SessionState)
    (selected : Option SelectedFace) (nowMs : ℚ) : SessionState :=
  match selected with
  | none =>
    let s := { s with isFaceDetected := false }
    if s.isRunning ∧ s.stepStatus = StepStatus.active then
      { s with feedbackMessage := "No face detected — look at the camera" }
    else s
  | some sel =>
    let s := { s with isFaceDetected := true }
    if s.isRunning then
      let step := cfg.getD s.currentStepRef default
      let elapsed := nowMs - s.stepStartTime
      let timeRemaining := max 0 ((STEP_TIMEOUT_MS - elapsed) / 1000)
      if STEP_TIMEOUT_MS < elapsed ∧ s.hasAdvanced = false then
        failStep "⏰ Time expired — please try again" s
      else
        let s := if s.stepStatus = StepStatus.active then
                   { s with timeRemaining := timeRemaining } else s
        let pose := extractHeadPose sel.landmarks
        match step with
        | ChallengeStep.center =>
          let isCentered := |pose.yaw| < CENTER_YAW_THRESHOLD
                          ∧ |pose.pitch| < CENTER_PITCH_THRESHOLD
          if isCentered then
            let s := { s with centerFrames := s.centerFrames + 1 }
            let progress := min 1 ((s.centerFrames : ℚ) / (CENTER_HOLD_FRAMES : ℚ))
            let s := if s.stepStatus = StepStatus.active then
                       { s with motionProgress := progress
                                feedbackMessage :=
                                  if progress < 1 then "Hold still — centering…"
                                  else "✓ Centered!" }
                     else s
            if CENTER_HOLD_FRAMES ≤ s.centerFrames then advanceStepSync cfg s else s
          else
            let s := { s with centerFrames := 0 }
            if s.stepStatus = StepStatus.active then
              { s with motionProgress := 0
                       feedbackMessage := "Look straight at the camera" }
            else s
        | ChallengeStep.head direction =>
          let vr := s.motionValidator.addFrame pose direction
          let s := { s with motionValidator := vr.1 }
          match vr.2.rejectionReason with
          | some reason => failStep ("❌ " ++ reason) s
          | none =>
            let s := if s.stepStatus = StepStatus.active then
                       { s with motionProgress := vr.2.progress
                                feedbackMessage :=
                                  if vr.2.isValid then "✓ Movement detected!"
                                  else getInstructionMessage step }
                     else s
            if vr.2.isValid then advanceStepSync cfg s else s
        | ChallengeStep.blink =>
          match sel.blendshapes with
          | none => s
          | some bs =>
            let br := s.blinkDetector.addFrame (some bs)
            let s := { s with blinkDetector := br.1 }
            if br.2 then
              let s := if s.stepStatus = StepStatus.active then
                         { s with motionProgress := 1
                                  feedbackMessage := "✓ Blink detected!" }
                       else s
              advanceStepSync cfg s
            else
              if s.stepStatus = StepStatus.active then
                { s with feedbackMessage := "Please blink naturally 👁️" }
              else s
    else s

/-! ### Concrete inputs used by witnesses and counterexamples -/

/-- Blendshapes with an asymmetric "wink": left eye scored 0.9 closed,
right eye 0.1. -/
def oneSidedScores : Option (List Classifications) :=
  some [⟨[⟨"eyeBlinkLeft", 0.9⟩, ⟨"eyeBlinkRight", 0.1⟩]⟩]

/-- Blendshapes with both eyes scored 0.9 closed. -/
def closedScores : Option (List Classifications) :=
  some [⟨[⟨"eyeBlinkLeft", 0.9⟩, ⟨"eyeBlinkRight", 0.9⟩]⟩]

/-- The blink detector after being fed `oneSidedScores` n times from the
waiting phase. -/
def blinkRepeat : Nat → BlinkDetector
  | 0 => ⟨BlinkPhase.waiting⟩
  | n + 1 => ((blinkRepeat n).addFrame oneSidedScores).1

/-- The pose formula as the specification words it: the degenerate guard
fires exactly when the normalizer is strictly below 0.001, the formula
applying otherwise. Stated from the spec's words for comparison with
`extractHeadPose`, whose guard also fires at exactly 0.001. -/
def extractHeadPoseSpec (landmarks : List Landmark) : HeadPose :=
  let nose := landmarks.getD IDX_NOSE_TIP default
  let leftEye := landmarks.getD IDX_LEFT_EYE_OUTER default
  let rightEye := landmarks.getD IDX_RIGHT_EYE_OUTER default
  let chin := landmarks.getD IDX_CHIN default
  let forehead := landmarks.getD IDX_FOREHEAD default
  let eyeMidX := (leftEye.x + rightEye.x) / 2
  let interEyeDistance := |rightEye.x - leftEye.x|
  let yaw := if interEyeDistance < 0.001 then 0 else (nose.x - eyeMidX) / interEyeDistance
  let eyeMidY := (leftEye.y + rightEye.y) / 2
  let faceHeight := |chin.y - forehead.y|
  let pitch := if faceHeight < 0.001 then 0 else (nose.y - eyeMidY) / faceHeight
  { yaw := yaw, pitch := pitch, noseTipX := nose.x, noseTipY := nose.y }

/-- A landmark set whose inter-eye distance is exactly 0.001 while the
nose sits far off center: left eye at x = 0, right eye at x = 0.001,
nose at x = 1. -/
def boundaryLandmarks : List Landmark :=
  ((List.replicate 264 (⟨0, 0⟩ : Landmark)).set IDX_NOSE_TIP ⟨1, 0⟩).set
    IDX_RIGHT_EYE_OUTER ⟨0.001, 0⟩

/-- A landmark set long enough to place the right cheek at x = w and the
chin at y = h (all other points at the origin), so its bounding-box area
is w × h. -/
def faceOfArea (w h : ℚ) : List Landmark :=
  ((List.replicate 455 (⟨0, 0⟩ : Landmark)).set IDX_RIGHT_CHEEK ⟨w, 0⟩).set IDX_CHIN ⟨0, h⟩

/-- A challenge sequence beginning with the center-hold step. -/
def centerSequence : List ChallengeStep := [ChallengeStep.center, ChallengeStep.blink]

/-- A selected face with no landmarks: every landmark defaults to the
origin, so the extracted pose is exactly {yaw: 0, pitch: 0}. -/
def centeredFace : SelectedFace :=
  { landmarks := [], blendshapes := none, faceIndex := 0 }

/-- The session after n detection ticks of the center step, each tick at
wall-clock 0 with a perfectly centered face, starting from
`startChallenge`. -/
def centerScenario : Nat → SessionState
  | 0 => startChallenge centerSequence 0
  | n + 1 => processTick centerSequence (centerScenario n) (some centeredFace) 0

/-! ### Shared lemmas -/

/-- Both per-axis displacement minima are positive. -/
lemma getMinDisplacement_pos (direction : ChallengeDirection) :
    0 < getMinDisplacement direction := by
  cases direction <;> decide

/-- When every consecutive delta on the selected axis stays within
`MAX_FRAME_DELTA`, the jump-rejection scan comes back negative. -/
lemma axisDeltas_any_eq_false {history : List HeadPose} {axis : Axis}
    (h : ∀ d ∈ axisDeltas history axis, |d| ≤ MAX_FRAME_DELTA) :
    (axisDeltas history axis).any (fun d => decide (MAX_FRAME_DELTA < |d|)) = false := by
  rw [List.any_eq_false]
  intro d hd
  simp only [decide_eq_true_eq]
  exact not_lt.mpr (h d hd)

/-! ### C1 -/

/-- C1: with at least 6 poses in the post-append window, any
consecutive-pair delta above 0.12 on the selected axis makes `addFrame`
return `isValid=false`, `progress=0` and the sudden-movement rejection
reason, regardless of displacement or directional ratio. -/
theorem claim1_jump_rejection_priority (v : MotionValidator) (pose : HeadPose)
    (direction : ChallengeDirection)
    (h6 : 6 ≤ (pushWindow v.poseHistory pose).length)
    (hjump : ∃ d ∈ axisDeltas (pushWindow v.poseHistory pose) (getAxis direction),
      MAX_FRAME_DELTA < |d|) :
    (v.addFrame pose direction).2 =
      { isValid := false
        progress := 0
        rejectionReason := some "Sudden movement detected — please move slowly" } := by
  obtain ⟨d, hd, hgt⟩ := hjump
  have hany : (axisDeltas (pushWindow v.poseHistory pose) (getAxis direction)).any
      (fun d => decide (MAX_FRAME_DELTA < |d|)) = true :=
    List.any_eq_true.mpr ⟨d, hd, decide_eq_true hgt⟩
  have hnlt : ¬ (pushWindow v.poseHistory pose).length < 6 := by omega
  simp [MotionValidator.addFrame, MotionValidator.validate, hnlt, hany]

/-- C1 witness: five flat poses then a yaw jump of 1.0. -/
theorem claim1_witness :
    (6 ≤ (pushWindow (List.replicate 5 default) ⟨1, 0, 0, 0⟩).length ∧
     ∃ d ∈ axisDeltas (pushWindow (List.replicate 5 default) ⟨1, 0, 0, 0⟩)
        (getAxis ChallengeDirection.turnLeft), MAX_FRAME_DELTA < |d|) ∧
    ((⟨List.replicate 5 default, true⟩ : MotionValidator).addFrame ⟨1, 0, 0, 0⟩
        ChallengeDirection.turnLeft).2 =
      { isValid := false
        progress := 0
        rejectionReason := some "Sudden movement detected — please move slowly" } :=
  ⟨⟨by decide, by decide⟩,
    claim1_jump_rejection_priority ⟨List.replicate 5 default, true⟩ ⟨1, 0, 0, 0⟩
      ChallengeDirection.turnLeft (by decide) (by decide)⟩

/-! ### C2 -/

/-- C2: with at least 6 samples, no consecutive delta above the jump
threshold, the signed total displacement at least the per-axis minimum
and the directional ratio at least 0.55, `addFrame` returns
`isValid=true`; with fewer than 6 samples it returns
`{isValid:false, progress:0}`; and the expected signs and per-axis
minima are exactly those the claim names. -/
theorem claim2_valid_motion :
    (∀ (v : MotionValidator) (pose : HeadPose) (direction : ChallengeDirection),
      6 ≤ (pushWindow v.poseHistory pose).length →
      (∀ d ∈ axisDeltas (pushWindow v.poseHistory pose) (getAxis direction),
        |d| ≤ MAX_FRAME_DELTA) →
      getMinDisplacement direction ≤ totalDisplacement (pushWindow v.poseHistory pose) direction →
      minDirectionalRatio ≤ directionalRatio (pushWindow v.poseHistory pose) direction →
      ((v.addFrame pose direction).2).isValid = true) ∧
    (∀ (v : MotionValidator) (pose : HeadPose) (direction : ChallengeDirection),
      (pushWindow v.poseHistory pose).length < 6 →
      (v.addFrame pose direction).2 =
        { isValid := false, progress := 0, rejectionReason := none }) ∧
    (getExpectedSign ChallengeDirection.turnLeft = 1 ∧
     getExpectedSign ChallengeDirection.turnRight = -1 ∧
     getExpectedSign ChallengeDirection.lookUp = -1 ∧
     getExpectedSign ChallengeDirection.lookDown = 1) ∧
    (getMinDisplacement ChallengeDirection.turnLeft = 0.30 ∧
     getMinDisplacement ChallengeDirection.turnRight = 0.30 ∧
     getMinDisplacement ChallengeDirection.lookUp = 0.18 ∧
     getMinDisplacement ChallengeDirection.lookDown = 0.18) := by
  refine ⟨?_, ?_, by decide, by decide⟩
  · intro v pose direction h6 hall hdisp hratio
    have hany := axisDeltas_any_eq_false hall
    have hnlt : ¬ (pushWindow v.poseHistory pose).length < 6 := by omega
    simp only [MotionValidator.addFrame, hnlt, if_false, MotionValidator.validate, hany,
      Bool.false_eq_true]
    simp [hdisp, hratio]
  · intro v pose direction hlt
    simp [MotionValidator.addFrame, hlt]

/-- C2 witness: six poses with yaw rising by 0.07 each frame (total 0.35,
ratio 1) under `turnLeft`. -/
theorem claim2_witness :
    (6 ≤ (pushWindow [⟨0, 0, 0, 0⟩, ⟨0.07, 0, 0, 0⟩, ⟨0.14, 0, 0, 0⟩, ⟨0.21, 0, 0, 0⟩,
        ⟨0.28, 0, 0, 0⟩] ⟨0.35, 0, 0, 0⟩).length ∧
     getMinDisplacement ChallengeDirection.turnLeft ≤
       totalDisplacement (pushWindow [⟨0, 0, 0, 0⟩, ⟨0.07, 0, 0, 0⟩, ⟨0.14, 0, 0, 0⟩,
         ⟨0.21, 0, 0, 0⟩, ⟨0.28, 0, 0, 0⟩] ⟨0.35, 0, 0, 0⟩) ChallengeDirection.turnLeft) ∧
    (((⟨[⟨0, 0, 0, 0⟩, ⟨0.07, 0, 0, 0⟩, ⟨0.14, 0, 0, 0⟩, ⟨0.21, 0, 0, 0⟩, ⟨0.28, 0, 0, 0⟩],
        true⟩ : MotionValidator).addFrame ⟨0.35, 0, 0, 0⟩
        ChallengeDirection.turnLeft).2).isValid = true :=
  ⟨⟨by decide, by decide⟩,
    claim2_valid_motion.1 ⟨[⟨0, 0, 0, 0⟩, ⟨0.07, 0, 0, 0⟩, ⟨0.14, 0, 0, 0⟩, ⟨0.21, 0, 0, 0⟩,
        ⟨0.28, 0, 0, 0⟩], true⟩ ⟨0.35, 0, 0, 0⟩ ChallengeDirection.turnLeft
      (by decide) (by decide) (by decide) (by decide)⟩

/-! ### C10 -/

/-- C10: the jump check reads only the axis selected by the direction
(yaw for turnLeft/turnRight, pitch for lookUp/lookDown); if every
consecutive delta on that axis stays within 0.12, `addFrame` never
returns a rejection reason, whatever the other axis does. -/
theorem claim10_jump_axis_only :
    (∀ (v : MotionValidator) (pose : HeadPose) (direction : ChallengeDirection),
      (∀ d ∈ axisDeltas (pushWindow v.poseHistory pose) (getAxis direction),
        |d| ≤ MAX_FRAME_DELTA) →
      ((v.addFrame pose direction).2).rejectionReason = none) ∧
    (getAxis ChallengeDirection.turnLeft = Axis.yaw ∧
     getAxis ChallengeDirection.turnRight = Axis.yaw ∧
     getAxis ChallengeDirection.lookUp = Axis.pitch ∧
     getAxis ChallengeDirection.lookDown = Axis.pitch) := by
  refine ⟨?_, by decide⟩
  intro v pose direction hall
  have hany := axisDeltas_any_eq_false hall
  by_cases hlt : (pushWindow v.poseHistory pose).length < 6
  · simp [MotionValidator.addFrame, hlt]
  · simp [MotionValidator.addFrame, MotionValidator.validate, hlt, hany]

/-- C10 witness: flat yaw with pitch swinging by 10 per frame still
yields no rejection reason under `turnLeft`. -/
theorem claim10_witness :
    (∀ d ∈ axisDeltas (pushWindow [⟨0, 0, 0, 0⟩, ⟨0, 10, 0, 0⟩, ⟨0, 0, 0, 0⟩, ⟨0, 10, 0, 0⟩,
        ⟨0, 0, 0, 0⟩] ⟨0, 10, 0, 0⟩) (getAxis ChallengeDirection.turnLeft),
      |d| ≤ MAX_FRAME_DELTA) ∧
    (((⟨[⟨0, 0, 0, 0⟩, ⟨0, 10, 0, 0⟩, ⟨0, 0, 0, 0⟩, ⟨0, 10, 0, 0⟩, ⟨0, 0, 0, 0⟩],
        true⟩ : MotionValidator).addFrame ⟨0, 10, 0, 0⟩
        ChallengeDirection.turnLeft).2).rejectionReason = none :=
  ⟨by decide,
    claim10_jump_axis_only.1 ⟨[⟨0, 0, 0, 0⟩, ⟨0, 10, 0, 0⟩, ⟨0, 0, 0, 0⟩, ⟨0, 10, 0, 0⟩,
        ⟨0, 0, 0, 0⟩], true⟩ ⟨0, 10, 0, 0⟩ ChallengeDirection.turnLeft (by decide)⟩

/-! ### C6 -/

/-- When the jump scan passes, `validate`'s progress is the clamped
normalized displacement. -/
lemma validate_progress_eq {history : List HeadPose} {direction : ChallengeDirection}
    (hall : ∀ d ∈ axisDeltas history (getAxis direction), |d| ≤ MAX_FRAME_DELTA) :
    (MotionValidator.validate history direction).progress =
      min 1 (max 0 (totalDisplacement history direction / getMinDisplacement direction)) := by
  have hany := axisDeltas_any_eq_false hall
  simp [MotionValidator.validate, hany]

/-- C6: at the scoring stage the returned progress equals
`clamp(totalDisplacement / minRequiredDisplacement, 0, 1)` (whatever
`isValid` is); every `addFrame` result has progress in [0,1]; and
progress is monotone as the correctly-signed displacement strictly
increases. -/
theorem claim6_progress_clamped_monotone :
    (∀ (history : List HeadPose) (direction : ChallengeDirection),
      6 ≤ history.length →
      (∀ d ∈ axisDeltas history (getAxis direction), |d| ≤ MAX_FRAME_DELTA) →
      (MotionValidator.validate history direction).progress =
        min 1 (max 0 (totalDisplacement history direction / getMinDisplacement direction))) ∧
    (∀ (v : MotionValidator) (pose : HeadPose) (direction : ChallengeDirection),
      0 ≤ ((v.addFrame pose direction).2).progress ∧
      ((v.addFrame pose direction).2).progress ≤ 1) ∧
    (∀ (h1 h2 : List HeadPose) (direction : ChallengeDirection),
      6 ≤ h1.length → 6 ≤ h2.length →
      (∀ d ∈ axisDeltas h1 (getAxis direction), |d| ≤ MAX_FRAME_DELTA) →
      (∀ d ∈ axisDeltas h2 (getAxis direction), |d| ≤ MAX_FRAME_DELTA) →
      totalDisplacement h1 direction < totalDisplacement h2 direction →
      (MotionValidator.validate h1 direction).progress ≤
        (MotionValidator.validate h2 direction).progress) := by
  refine ⟨fun history direction _ hall => validate_progress_eq hall, ?_, ?_⟩
  · intro v pose direction
    by_cases hlt : (pushWindow v.poseHistory pose).length < 6
    · simp [MotionValidator.addFrame, hlt]
    · cases hany : (axisDeltas (pushWindow v.poseHistory pose) (getAxis direction)).any
          (fun d => decide (MAX_FRAME_DELTA < |d|)) with
      | true =>
        simp [MotionValidator.addFrame, MotionValidator.validate, hlt, hany]
      | false =>
        simp only [MotionValidator.addFrame, hlt, if_false, MotionValidator.validate, hany,
          Bool.false_eq_true]
        constructor
        · exact le_min (by norm_num) (le_max_left 0 _)
        · exact min_le_left 1 _
  · intro h1 h2 direction _ _ hall1 hall2 hlt
    rw [validate_progress_eq hall1, validate_progress_eq hall2]
    have hm := getMinDisplacement_pos direction
    have hdiv : totalDisplacement h1 direction / getMinDisplacement direction ≤
        totalDisplacement h2 direction / getMinDisplacement direction :=
      (div_le_div_iff_of_pos_right hm).mpr (le_of_lt hlt)
    exact min_le_min (le_refl 1) (max_le_max (le_refl 0) hdiv)

/-- C6 witness: the monotone-rising window of the C2 witness, whose
progress evaluates to the clamp of 0.35/0.30. -/
theorem claim6_witness :
    (6 ≤ ([⟨0, 0, 0, 0⟩, ⟨0.07, 0, 0, 0⟩, ⟨0.14, 0, 0, 0⟩, ⟨0.21, 0, 0, 0⟩,
        ⟨0.28, 0, 0, 0⟩, ⟨0.35, 0, 0, 0⟩] : List HeadPose).length ∧
     ∀ d ∈ axisDeltas [⟨0, 0, 0, 0⟩, ⟨0.07, 0, 0, 0⟩, ⟨0.14, 0, 0, 0⟩, ⟨0.21, 0, 0, 0⟩,
        ⟨0.28, 0, 0, 0⟩, ⟨0.35, 0, 0, 0⟩] (getAxis ChallengeDirection.turnLeft),
       |d| ≤ MAX_FRAME_DELTA) ∧
    (MotionValidator.validate [⟨0, 0, 0, 0⟩, ⟨0.07, 0, 0, 0⟩, ⟨0.14, 0, 0, 0⟩, ⟨0.21, 0, 0, 0⟩,
        ⟨0.28, 0, 0, 0⟩, ⟨0.35, 0, 0, 0⟩] ChallengeDirection.turnLeft).progress =
      min 1 (max 0 (totalDisplacement [⟨0, 0, 0, 0⟩, ⟨0.07, 0, 0, 0⟩, ⟨0.14, 0, 0, 0⟩,
        ⟨0.21, 0, 0, 0⟩, ⟨0.28, 0, 0, 0⟩, ⟨0.35, 0, 0, 0⟩] ChallengeDirection.turnLeft /
        getMinDisplacement ChallengeDirection.turnLeft)) :=
  ⟨⟨by decide, by decide⟩,
    claim6_progress_clamped_monotone.1 [⟨0, 0, 0, 0⟩, ⟨0.07, 0, 0, 0⟩, ⟨0.14, 0, 0, 0⟩,
      ⟨0.21, 0, 0, 0⟩, ⟨0.28, 0, 0, 0⟩, ⟨0.35, 0, 0, 0⟩] ChallengeDirection.turnLeft
      (by decide) (by decide)⟩

/-! ### C3 -/

/-- C3: the blink state machine closes (both scores above 0.4) from
waiting to eyes_closed returning false, completes (both scores below
0.2) from eyes_closed to detected returning true, is terminal in
detected for every input, returns true exactly when terminal or on the
completing frame, and an asymmetric 0.9/0.1 input fed repeatedly never
leaves waiting and always returns false. -/
theorem claim3_blink_cycle :
    (∀ (bs : Option (List Classifications)) (l r : ℚ),
      extractScores bs = some (l, r) → BLINK_THRESHOLD < l → BLINK_THRESHOLD < r →
      BlinkDetector.addFrame ⟨BlinkPhase.waiting⟩ bs = (⟨BlinkPhase.eyes_closed⟩, false)) ∧
    (∀ (bs : Option (List Classifications)) (l r : ℚ),
      extractScores bs = some (l, r) → l < OPEN_THRESHOLD → r < OPEN_THRESHOLD →
      BlinkDetector.addFrame ⟨BlinkPhase.eyes_closed⟩ bs = (⟨BlinkPhase.detected⟩, true)) ∧
    (∀ bs, BlinkDetector.addFrame ⟨BlinkPhase.detected⟩ bs = (⟨BlinkPhase.detected⟩, true)) ∧
    (∀ (d : BlinkDetector) (bs : Option (List Classifications)),
      (d.addFrame bs).2 = true ↔
        (d.phase = BlinkPhase.detected ∨
         (d.phase = BlinkPhase.eyes_closed ∧
          ∃ l r, extractScores bs = some (l, r) ∧ l < OPEN_THRESHOLD ∧ r < OPEN_THRESHOLD))) ∧
    (∀ n, blinkRepeat n = ⟨BlinkPhase.waiting⟩ ∧
      ((blinkRepeat n).addFrame oneSidedScores).2 = false) := by
  have hstep : BlinkDetector.addFrame ⟨BlinkPhase.waiting⟩ oneSidedScores =
      (⟨BlinkPhase.waiting⟩, false) := by decide
  refine ⟨?_, ?_, ?_, ?_, ?_⟩
  · intro bs l r hs hl hr
    simp [BlinkDetector.addFrame, hs, hl, hr]
  · intro bs l r hs hl hr
    simp [BlinkDetector.addFrame, hs, hl, hr]
  · intro bs
    simp [BlinkDetector.addFrame]
  · intro d bs
    obtain ⟨ph⟩ := d
    cases ph with
    | detected => simp [BlinkDetector.addFrame]
    | waiting =>
      cases hs : extractScores bs with
      | none => simp [BlinkDetector.addFrame, hs]
      | some p =>
        obtain ⟨l, r⟩ := p
        simp only [BlinkDetector.addFrame, hs]
        split
        · rename_i hdet; exact absurd hdet (by decide)
        · refine iff_of_false ?_ ?_
          · split <;> simp
          · rintro (hdet | ⟨hec, -⟩)
            · exact absurd hdet (by decide)
            · exact absurd hec (by decide)
    | eyes_closed =>
      cases hs : extractScores bs with
      | none => simp [BlinkDetector.addFrame, hs]
      | some p =>
        obtain ⟨l, r⟩ := p
        simp only [BlinkDetector.addFrame, hs]
        split
        · rename_i hdet; exact absurd hdet (by decide)
        · split <;> rename_i hif
          · exact iff_of_true rfl (Or.inr ⟨trivial, ⟨l, r, rfl, hif.1, hif.2⟩⟩)
          · refine iff_of_false (by simp) ?_
            rintro (hdet | ⟨-, l1, r1, heq, hlt1, hlt2⟩)
            · exact absurd hdet (by decide)
            · obtain ⟨rfl, rfl⟩ := Prod.mk.inj (Option.some.inj heq)
              exact hif ⟨hlt1, hlt2⟩
  · intro n
    induction n with
    | zero => exact ⟨rfl, by rw [blinkRepeat, hstep]⟩
    | succ n ih =>
      have h1 : blinkRepeat (n + 1) = ⟨BlinkPhase.waiting⟩ := by
        rw [blinkRepeat, ih.1, hstep]
      exact ⟨h1, by rw [h1, hstep]⟩

/-- C3 witness: both-eyes-closed scores of 0.9 move waiting to
eyes_closed and return false. -/
theorem claim3_witness :
    (extractScores closedScores = some (0.9, 0.9) ∧ BLINK_THRESHOLD < 0.9) ∧
    BlinkDetector.addFrame ⟨BlinkPhase.waiting⟩ closedScores =
      (⟨BlinkPhase.eyes_closed⟩, false) :=
  ⟨⟨by decide, by decide⟩,
    claim3_blink_cycle.1 closedScores 0.9 0.9 (by decide) (by decide) (by decide)⟩

/-! ### C9 -/

/-- C9 counterexample: in the detected phase, `addFrame` on missing
(null) and on empty blendshapes returns true, not false as the claim
states. -/
theorem claim9_counterexample :
    ((⟨BlinkPhase.detected⟩ : BlinkDetector).addFrame none).2 = true ∧
    ((⟨BlinkPhase.detected⟩ : BlinkDetector).addFrame (some [])).2 = true := by decide

/-- C9 amended: with missing or unusable score input the detector never
changes state, and the returned boolean is false in waiting and
eyes_closed but true in the terminal detected phase, where the input is
never examined. -/
theorem claim9_missing_input (d : BlinkDetector) (bs : Option (List Classifications))
    (h : extractScores bs = none) :
    (d.addFrame bs).1 = d ∧
    ((d.addFrame bs).2 = true ↔ d.phase = BlinkPhase.detected) := by
  by_cases hd : d.phase = BlinkPhase.detected
  · simp [BlinkDetector.addFrame, hd]
  · simp [BlinkDetector.addFrame, hd, h]

/-- C9 witness: null input in the waiting phase. -/
theorem claim9_witness :
    extractScores none = none ∧
    (((⟨BlinkPhase.waiting⟩ : BlinkDetector).addFrame none).1 = ⟨BlinkPhase.waiting⟩ ∧
     (((⟨BlinkPhase.waiting⟩ : BlinkDetector).addFrame none).2 = true ↔
       (⟨BlinkPhase.waiting⟩ : BlinkDetector).phase = BlinkPhase.detected)) :=
  ⟨rfl, claim9_missing_input ⟨BlinkPhase.waiting⟩ none rfl⟩

/-! ### C7 -/

/-- C7 counterexample: at inter-eye distance exactly 0.001 the guard the
claim states (`< 0.001`) does not fire, so the claim demands the
formula value 999.5, but the code returns yaw = 0. -/
theorem claim7_counterexample :
    ¬(|(boundaryLandmarks.getD IDX_RIGHT_EYE_OUTER default).x -
        (boundaryLandmarks.getD IDX_LEFT_EYE_OUTER default).x| < 0.001) ∧
    (extractHeadPoseSpec boundaryLandmarks).yaw = 999.5 ∧
    (extractHeadPose boundaryLandmarks).yaw = 0 ∧
    extractHeadPose boundaryLandmarks ≠ extractHeadPoseSpec boundaryLandmarks := by decide

/-- C7 amended: `extractHeadPose` computes yaw as
`(noseX − midEyeX) / interEyeDistance` whenever the inter-eye distance
exceeds 0.001 and yaw = 0 whenever it is at most 0.001 (not only when
strictly below it), and likewise for pitch with the face height; the
nose tip is passed through unchanged. -/
theorem claim7_pose_extraction (lm : List Landmark) :
    ((0.001 < |(lm.getD IDX_RIGHT_EYE_OUTER default).x - (lm.getD IDX_LEFT_EYE_OUTER default).x| →
      (extractHeadPose lm).yaw =
        ((lm.getD IDX_NOSE_TIP default).x -
            ((lm.getD IDX_LEFT_EYE_OUTER default).x + (lm.getD IDX_RIGHT_EYE_OUTER default).x) / 2) /
          |(lm.getD IDX_RIGHT_EYE_OUTER default).x - (lm.getD IDX_LEFT_EYE_OUTER default).x|) ∧
     (|(lm.getD IDX_RIGHT_EYE_OUTER default).x - (lm.getD IDX_LEFT_EYE_OUTER default).x| ≤ 0.001 →
      (extractHeadPose lm).yaw = 0)) ∧
    ((0.001 < |(lm.getD IDX_CHIN default).y - (lm.getD IDX_FOREHEAD default).y| →
      (extractHeadPose lm).pitch =
        ((lm.getD IDX_NOSE_TIP default).y -
            ((lm.getD IDX_LEFT_EYE_OUTER default).y + (lm.getD IDX_RIGHT_EYE_OUTER default).y) / 2) /
          |(lm.getD IDX_CHIN default).y - (lm.getD IDX_FOREHEAD default).y|) ∧
     (|(lm.getD IDX_CHIN default).y - (lm.getD IDX_FOREHEAD default).y| ≤ 0.001 →
      (extractHeadPose lm).pitch = 0)) ∧
    (extractHeadPose lm).noseTipX = (lm.getD IDX_NOSE_TIP default).x ∧
    (extractHeadPose lm).noseTipY = (lm.getD IDX_NOSE_TIP default).y := by
  refine ⟨⟨?_, ?_⟩, ⟨?_, ?_⟩, ?_, ?_⟩
  · intro h
    simp only [extractHeadPose]
    rw [if_pos h]
  · intro h
    simp only [extractHeadPose]
    rw [if_neg (not_lt.mpr h)]
  · intro h
    simp only [extractHeadPose]
    rw [if_pos h]
  · intro h
    simp only [extractHeadPose]
    rw [if_neg (not_lt.mpr h)]
  · simp only [extractHeadPose]
  · simp only [extractHeadPose]

/-- C7 witness: at the 0.001 boundary the amended guard applies and yaw
is 0. -/
theorem claim7_witness :
    |(boundaryLandmarks.getD IDX_RIGHT_EYE_OUTER default).x -
        (boundaryLandmarks.getD IDX_LEFT_EYE_OUTER default).x| ≤ 0.001 ∧
    (extractHeadPose boundaryLandmarks).yaw = 0 :=
  ⟨by decide, (claim7_pose_extraction boundaryLandmarks).1.2 (by decide)⟩

/-! ### C8 -/

/-- A bounding-box area is a product of absolute values, hence
nonnegative. -/
lemma faceArea_nonneg (lm : List Landmark) : 0 ≤ faceArea lm := by
  simp only [faceArea]
  exact mul_nonneg (abs_nonneg _) (abs_nonneg _)

/-- Invariant of the `selectLargestFace` scan: either no element beats
the carried best area and the carried best index is returned, or the
returned index points at the first strict maximum among the remaining
elements. -/
lemma selectLoop_spec (rest : List (List Landmark)) :
    ∀ (i bi : Nat) (ba : ℚ),
      (selectLoop rest i bi ba = bi ∧
        ∀ k, k < rest.length → faceArea (rest.getD k []) ≤ ba) ∨
      (∃ k, k < rest.length ∧ selectLoop rest i bi ba = i + k ∧
        ba < faceArea (rest.getD k []) ∧
        (∀ m, m < k → faceArea (rest.getD m []) < faceArea (rest.getD k [])) ∧
        (∀ m, k < m → m < rest.length →
          faceArea (rest.getD m []) ≤ faceArea (rest.getD k []))) := by
  induction rest with
  | nil =>
    intro i bi ba
    left
    exact ⟨rfl, fun k hk => absurd hk (Nat.not_lt_zero k)⟩
  | cons a rest ih =>
    intro i bi ba
    by_cases h : ba < faceArea a
    · have hloop : selectLoop (a :: rest) i bi ba = selectLoop rest (i + 1) i (faceArea a) := by
        simp [selectLoop, h]
      rcases ih (i + 1) i (faceArea a) with ⟨heq, hall⟩ | ⟨k, hk, heq, hgt, hbef, haft⟩
      · right
        refine ⟨0, Nat.succ_pos _, ?_, ?_, ?_, ?_⟩
        · rw [hloop, heq, Nat.add_zero]
        · simpa using h
        · intro m hm
          exact absurd hm (Nat.not_lt_zero m)
        · intro m hm0 hmlen
          obtain ⟨m', rfl⟩ : ∃ m', m = m' + 1 := ⟨m - 1, by omega⟩
          simp only [List.getD_cons_succ, List.getD_cons_zero]
          exact hall m' (by simp only [List.length_cons] at hmlen; omega)
      · right
        refine ⟨k + 1, by simp only [List.length_cons]; omega, ?_, ?_, ?_, ?_⟩
        · rw [hloop, heq]
          omega
        · simp only [List.getD_cons_succ]
          exact lt_trans h hgt
        · intro m hm
          cases m with
          | zero =>
            simp only [List.getD_cons_zero, List.getD_cons_succ]
            exact hgt
          | succ m' =>
            simp only [List.getD_cons_succ]
            exact hbef m' (by omega)
        · intro m hm1 hm2
          cases m with
          | zero => omega
          | succ m' =>
            simp only [List.getD_cons_succ]
            exact haft m' (by omega) (by simp only [List.length_cons] at hm2; omega)
    · have hloop : selectLoop (a :: rest) i bi ba = selectLoop rest (i + 1) bi ba := by
        simp [selectLoop, h]
      rcases ih (i + 1) bi ba with ⟨heq, hall⟩ | ⟨k, hk, heq, hgt, hbef, haft⟩
      · left
        refine ⟨by rw [hloop, heq], ?_⟩
        intro k hk
        cases k with
        | zero =>
          simp only [List.getD_cons_zero]
          exact not_lt.mp h
        | succ k' =>
          simp only [List.getD_cons_succ]
          exact hall k' (by simp only [List.length_cons] at hk; omega)
      · right
        refine ⟨k + 1, by simp only [List.length_cons]; omega, ?_, ?_, ?_, ?_⟩
        · rw [hloop, heq]
          omega
        · simp only [List.getD_cons_succ]
          exact hgt
        · intro m hm
          cases m with
          | zero =>
            simp only [List.getD_cons_zero, List.getD_cons_succ]
            exact lt_of_le_of_lt (not_lt.mp h) hgt
          | succ m' =>
            simp only [List.getD_cons_succ]
            exact hbef m' (by omega)
        · intro m hm1 hm2
          cases m with
          | zero => omega
          | succ m' =>
            simp only [List.getD_cons_succ]
            exact haft m' (by omega) (by simp only [List.length_cons] at hm2; omega)

/-- C8: `selectLargestFace` returns `none` exactly on the empty list;
on any other input the returned face's index is in range, its landmarks
are the list entry at that index, no face has a strictly larger
bounding-box area, and every earlier face has a strictly smaller one
(ties keep the earliest). -/
theorem claim8_largest_face :
    (∀ (l : List (List Landmark)) (bs : Option (List Classifications)),
      selectLargestFace l bs = none ↔ l = []) ∧
    (∀ (l : List (List Landmark)) (bs : Option (List Classifications)) (f : SelectedFace),
      selectLargestFace l bs = some f →
      f.faceIndex < l.length ∧
      f.landmarks = l.getD f.faceIndex [] ∧
      (∀ i, i < l.length → faceArea (l.getD i []) ≤ faceArea (l.getD f.faceIndex [])) ∧
      (∀ i, i < f.faceIndex → faceArea (l.getD i []) < faceArea (l.getD f.faceIndex []))) := by
  constructor
  · intro l bs
    cases l with
    | nil => simp [selectLargestFace]
    | cons a rest => simp [selectLargestFace]
  · intro l bs f hf
    cases l with
    | nil => simp [selectLargestFace] at hf
    | cons a rest =>
      simp only [selectLargestFace, List.isEmpty_cons, Bool.false_eq_true, if_false] at hf
      have hrec := Option.some.inj hf
      have hidx : f.faceIndex = selectLoop (a :: rest) 0 0 (-1) :=
        (congrArg SelectedFace.faceIndex hrec).symm
      have hlm : f.landmarks = (a :: rest).getD (selectLoop (a :: rest) 0 0 (-1)) [] :=
        (congrArg SelectedFace.landmarks hrec).symm
      rcases selectLoop_spec (a :: rest) 0 0 (-1) with ⟨heq, hall⟩ | ⟨k, hk, heq, hgt, hbef, haft⟩
      · exfalso
        have h0 := hall 0 (Nat.succ_pos _)
        rw [List.getD_cons_zero] at h0
        have := faceArea_nonneg a
        linarith
      · rw [Nat.zero_add] at heq
        rw [heq] at hidx
        refine ⟨?_, ?_, ?_, ?_⟩
        · rw [hidx]
          exact hk
        · rw [hlm, heq, hidx]
        · intro i hi
          rw [hidx]
          rcases lt_trichotomy i k with hik | rfl | hki
          · exact le_of_lt (hbef i hik)
          · exact le_refl _
          · exact haft i hki hi
        · intro i hi
          rw [hidx]
          rw [hidx] at hi
          exact hbef i hi

set_option maxRecDepth 40000 in
/-- C8 witness: the spec's two-face example with bounding areas 0.10
and 0.25; the second face is selected with index 1. -/
theorem claim8_witness :
    selectLargestFace [faceOfArea 0.5 0.2, faceOfArea 0.5 0.5] none =
      some { landmarks := faceOfArea 0.5 0.5, blendshapes := none, faceIndex := 1 } ∧
    faceArea (faceOfArea 0.5 0.2) = 0.10 ∧ faceArea (faceOfArea 0.5 0.5) = 0.25 ∧
    (({ landmarks := faceOfArea 0.5 0.5, blendshapes := none,
        faceIndex := 1 } : SelectedFace).faceIndex <
        ([faceOfArea 0.5 0.2, faceOfArea 0.5 0.5] : List (List Landmark)).length ∧
     ({ landmarks := faceOfArea 0.5 0.5, blendshapes := none,
        faceIndex := 1 } : SelectedFace).landmarks =
        [faceOfArea 0.5 0.2, faceOfArea 0.5 0.5].getD 1 [] ∧
     (∀ i, i < ([faceOfArea 0.5 0.2, faceOfArea 0.5 0.5] : List (List Landmark)).length →
        faceArea ([faceOfArea 0.5 0.2, faceOfArea 0.5 0.5].getD i []) ≤
          faceArea ([faceOfArea 0.5 0.2, faceOfArea 0.5 0.5].getD 1 [])) ∧
     (∀ i, i < 1 →
        faceArea ([faceOfArea 0.5 0.2, faceOfArea 0.5 0.5].getD i []) <
          faceArea ([faceOfArea 0.5 0.2, faceOfArea 0.5 0.5].getD 1 []))) :=
  ⟨by decide, by decide, by decide,
    claim8_largest_face.2 [faceOfArea 0.5 0.2, faceOfArea 0.5 0.5] none
      { landmarks := faceOfArea 0.5 0.5, blendshapes := none, faceIndex := 1 } (by decide)⟩

/-! ### C4 -/

/-- C4: on a tick with a detected face, while running and active, if the
elapsed wall-clock time exceeds the 5000 ms step timeout and the step
has not already advanced, the whole session fails with the timeout
message and stops running — there is no per-step retry. -/
theorem claim4_step_timeout (cfg : List ChallengeStep) (s : SessionState)
    (sel : SelectedFace) (nowMs : ℚ)
    (hrun : s.isRunning = true) (hact : s.stepStatus = StepStatus.active)
    (hadv : s.hasAdvanced = false)
    (ht : STEP_TIMEOUT_MS < nowMs - s.stepStartTime) :
    (processTick cfg s (some sel) nowMs).overallStatus = OverallStatus.failed ∧
    (processTick cfg s (some sel) nowMs).stepStatus = StepStatus.failed ∧
    (processTick cfg s (some sel) nowMs).feedbackMessage =
      "⏰ Time expired — please try again" ∧
    (processTick cfg s (some sel) nowMs).isRunning = false := by
  refine ⟨?_, ?_, ?_, ?_⟩ <;> simp [processTick, failStep, hrun, hadv, ht]

/-- C4 witness: a just-started session observed 6000 ms after the step
started. -/
theorem claim4_witness :
    ((startChallenge centerSequence 0).isRunning = true ∧
     (startChallenge centerSequence 0).stepStatus = StepStatus.active ∧
     (startChallenge centerSequence 0).hasAdvanced = false ∧
     STEP_TIMEOUT_MS < 6000 - (startChallenge centerSequence 0).stepStartTime) ∧
    ((processTick centerSequence (startChallenge centerSequence 0) (some centeredFace)
        6000).overallStatus = OverallStatus.failed ∧
     (processTick centerSequence (startChallenge centerSequence 0) (some centeredFace)
        6000).stepStatus = StepStatus.failed ∧
     (processTick centerSequence (startChallenge centerSequence 0) (some centeredFace)
        6000).feedbackMessage = "⏰ Time expired — please try again" ∧
     (processTick centerSequence (startChallenge centerSequence 0) (some centeredFace)
        6000).isRunning = false) :=
  ⟨⟨rfl, rfl, rfl, by decide⟩,
    claim4_step_timeout centerSequence (startChallenge centerSequence 0) centeredFace 6000
      rfl rfl rfl (by decide)⟩

/-! ### C5 -/

/-- Field bookkeeping of the synchronous part of `advanceStep` when the
step has not already advanced. -/
lemma advanceStepSync_fields (cfg : List ChallengeStep) (s : SessionState)
    (h : s.hasAdvanced = false) :
    (advanceStepSync cfg s).hasAdvanced = true ∧
    (advanceStepSync cfg s).centerFrames = s.centerFrames ∧
    (advanceStepSync cfg s).motionProgress = 1 ∧
    (advanceStepSync cfg s).stepStatus = StepStatus.success := by
  simp only [advanceStepSync, h, Bool.false_eq_true, if_false]
  split <;> simp

/-- C5: on a center-step tick with a face and no timeout, a centered
pose (|yaw| < 0.25 and |pitch| < 0.20) increments the consecutive-hold
counter, sets progress to the counter over 15 capped at 1, and advances
exactly when the counter reaches 15; a non-centered pose resets the
counter and progress to 0; and the concrete 15-frame scenario with pose
{yaw:0, pitch:0} reaches progress 1 and advances at frame 15, not
before. -/
theorem claim5_center_hold :
    (∀ (cfg : List ChallengeStep) (s : SessionState) (sel : SelectedFace) (nowMs : ℚ),
      s.isRunning = true → s.stepStatus = StepStatus.active → s.hasAdvanced = false →
      cfg.getD s.currentStepRef default = ChallengeStep.center →
      ¬(STEP_TIMEOUT_MS < nowMs - s.stepStartTime) →
      ((|(extractHeadPose sel.landmarks).yaw| < CENTER_YAW_THRESHOLD ∧
        |(extractHeadPose sel.landmarks).pitch| < CENTER_PITCH_THRESHOLD) →
        (processTick cfg s (some sel) nowMs).centerFrames = s.centerFrames + 1 ∧
        (processTick cfg s (some sel) nowMs).motionProgress =
          min 1 (((s.centerFrames + 1 : Nat) : ℚ) / (CENTER_HOLD_FRAMES : ℚ)) ∧
        ((processTick cfg s (some sel) nowMs).hasAdvanced = true ↔
          CENTER_HOLD_FRAMES ≤ s.centerFrames + 1)) ∧
      (¬(|(extractHeadPose sel.landmarks).yaw| < CENTER_YAW_THRESHOLD ∧
         |(extractHeadPose sel.landmarks).pitch| < CENTER_PITCH_THRESHOLD) →
        (processTick cfg s (some sel) nowMs).centerFrames = 0 ∧
        (processTick cfg s (some sel) nowMs).motionProgress = 0 ∧
        (processTick cfg s (some sel) nowMs).hasAdvanced = false)) ∧
    (∀ n, n < CENTER_HOLD_FRAMES →
      (centerScenario n).centerFrames = n ∧
      (centerScenario n).motionProgress = ((n : Nat) : ℚ) / (CENTER_HOLD_FRAMES : ℚ) ∧
      (centerScenario n).motionProgress < 1 ∧
      (centerScenario n).hasAdvanced = false) ∧
    ((centerScenario CENTER_HOLD_FRAMES).centerFrames = CENTER_HOLD_FRAMES ∧
     (centerScenario CENTER_HOLD_FRAMES).motionProgress = 1 ∧
     (centerScenario CENTER_HOLD_FRAMES).hasAdvanced = true ∧
     (centerScenario CENTER_HOLD_FRAMES).stepStatus = StepStatus.success) := by
  refine ⟨?_, by decide, by decide⟩
  intro cfg s sel nowMs hrun hact hadv hstep hnt
  simp only [List.getD_eq_getElem?_getD] at hstep
  constructor
  · intro hc
    by_cases hfin : CENTER_HOLD_FRAMES ≤ s.centerFrames + 1
    · have h15 : (1 : ℚ) ≤ ((s.centerFrames + 1 : Nat) : ℚ) / (CENTER_HOLD_FRAMES : ℚ) := by
        rw [le_div_iff₀ (by norm_num [CENTER_HOLD_FRAMES] : (0:ℚ) < (CENTER_HOLD_FRAMES : ℚ))]
        have hcast : (CENTER_HOLD_FRAMES : ℚ) ≤ ((s.centerFrames + 1 : Nat) : ℚ) := by
          exact_mod_cast hfin
        linarith
      refine ⟨?_, ?_, ?_⟩
      · simp [processTick, hrun, hadv, hnt, hstep, hact, hc, hfin]
        rw [(advanceStepSync_fields cfg _ (by simp [hadv])).2.1]
      · simp [processTick, hrun, hadv, hnt, hstep, hact, hc, hfin]
        rw [(advanceStepSync_fields cfg _ (by simp [hadv])).2.2.1]
        have h15' : (1 : ℚ) ≤ ((s.centerFrames : ℚ) + 1) / (CENTER_HOLD_FRAMES : ℚ) := by
          push_cast at h15
          exact h15
        rw [eq_comm, min_eq_left h15']
      · simp [processTick, hrun, hadv, hnt, hstep, hact, hc, hfin]
        rw [(advanceStepSync_fields cfg _ (by simp [hadv])).1]
    · refine ⟨?_, ?_, ?_⟩ <;>
        simp [processTick, hrun, hadv, hnt, hstep, hact, hc, hfin]
  · intro hc
    refine ⟨?_, ?_, ?_⟩ <;>
      simp [processTick, hrun, hadv, hnt, hstep, hact, hc]

/-- C5 witness: the first centered tick from a fresh session takes the
counter from 0 to 1 with progress 1/15 and no advance. -/
theorem claim5_witness :
    ((startChallenge centerSequence 0).isRunning = true ∧
     (startChallenge centerSequence 0).stepStatus = StepStatus.active ∧
     (startChallenge centerSequence 0).hasAdvanced = false ∧
     centerSequence.getD (startChallenge centerSequence 0).currentStepRef default =
       ChallengeStep.center ∧
     ¬(STEP_TIMEOUT_MS < 0 - (startChallenge centerSequence 0).stepStartTime) ∧
     (|(extractHeadPose centeredFace.landmarks).yaw| < CENTER_YAW_THRESHOLD ∧
      |(extractHeadPose centeredFace.landmarks).pitch| < CENTER_PITCH_THRESHOLD)) ∧
    ((processTick centerSequence (startChallenge centerSequence 0) (some centeredFace)
        0).centerFrames = (startChallenge centerSequence 0).centerFrames + 1 ∧
     (processTick centerSequence (startChallenge centerSequence 0) (some centeredFace)
        0).motionProgress =
       min 1 ((((startChallenge centerSequence 0).centerFrames + 1 : Nat) : ℚ) /
         (CENTER_HOLD_FRAMES : ℚ)) ∧
     ((processTick centerSequence (startChallenge centerSequence 0) (some centeredFace)
        0).hasAdvanced = true ↔
       CENTER_HOLD_FRAMES ≤ (startChallenge centerSequence 0).centerFrames + 1)) :=
  ⟨⟨rfl, rfl, rfl, rfl, by decide, by decide⟩,
    (claim5_center_hold.1 centerSequence (startChallenge centerSequence 0) centeredFace 0
      rfl rfl rfl rfl (by decide)).1 (by decide)⟩

end FaceLiveness
